import Mathlib

/-!
Verification of the partner-referral bot's core components against its
specification:
* the Ledger Client (`src/utils/sheets-old2.py`): partner registration and
  balance computation over a spreadsheet modelled as a list of rows;
* the User Store (`src/utils/database.py`): a keyed table of registration
  records with an approval flag and timestamps;
* the Admission Workflow (`src/handlers/admin.py`): approve / reject
  transitions coordinating the two stores.

Machine reals in the source are Python floats; every value exercised by the
spec's scenarios is a small decimal fraction whose arithmetic is exact, so
they are embedded as `Rat`. Timestamps are embedded as a logical clock
(`Nat`) carried by the store state: `CURRENT_TIMESTAMP` / `datetime.now()`
both read the clock, which advances at each mutating operation.
-/

/-! ## Ledger worksheet model

A worksheet is a list of rows, each row a list of cell strings; the first
row is the header. `worksheet.find(key, in_column=1)` is a top-down scan of
column 1; `worksheet.row_values(r)` returns the r-th row;
`worksheet.append_row(d)` appends at the bottom. -/

abbrev Row := List String

abbrev Worksheet := List Row

/-- Outcome of opening the spreadsheet: `fail` stands for any exception
raised while building the client or fetching the worksheet (missing
credentials, connection error, spreadsheet or worksheet not found);
`ok ws` is a live worksheet. -/
inductive SheetsEnv where
  | fail : SheetsEnv
  | ok : Worksheet → SheetsEnv
  deriving DecidableEq

/-- Index of the first row whose column-1 cell equals `key`
(`worksheet.find(key, in_column=1)`); `none` when the key is absent. -/
def findKeyRow (ws : Worksheet) (key : String) : Option Nat :=
  ws.findIdx? (fun row => row.head? = some key)

/-! ### Python `float` parsing

`float(value)` on a cell string: surrounding whitespace is stripped, then an
optional sign, a decimal numeral with at most one point and at least one
digit, and an optional exponent are accepted; anything else raises
`ValueError`. This embeds that grammar on ASCII decimal numerals (the
fragment the ledger exercises; `inf`, `nan` and digit underscores do not
occur in the scenarios). -/

/-- Python `str.strip()`: remove whitespace from both ends. -/
def pyStrip (cs : List Char) : List Char :=
  ((cs.dropWhile Char.isWhitespace).reverse.dropWhile Char.isWhitespace).reverse

/-- Python `str.strip()` at the `String` level. -/
def stripStr (s : String) : String :=
  String.mk (pyStrip s.toList)

/-- Value of a digit string (most significant first). -/
def digitsToNat (cs : List Char) : Nat :=
  cs.foldl (fun a c => 10 * a + (c.toNat - 48)) 0

/-- Syntactic content of an accepted float literal: sign, integral digits,
fractional digits with their count, and the exponent. -/
structure FloatRepr where
  neg : Bool
  intDigits : Nat
  fracDigits : Nat
  fracLen : Nat
  exp : Int
  deriving DecidableEq

/-- Exact rational value denoted by a float literal. -/
def ratOfRepr (r : FloatRepr) : Rat :=
  let mag : Rat :=
    ((r.intDigits : Rat) + (r.fracDigits : Rat) / ((10 ^ r.fracLen : Nat) : Rat)) * (10 : Rat) ^ r.exp
  if r.neg then -mag else mag

/-- Mantissa of a Python float literal: `digits`, `digits.digits`,
`.digits` or `digits.` — at least one digit overall. Returns the integral
digits, the fractional digits and the fractional length. -/
def parseMantissa (cs : List Char) : Option (Nat × Nat × Nat) :=
  let intPart := cs.takeWhile Char.isDigit
  let rest := cs.dropWhile Char.isDigit
  match rest with
  | [] =>
    if intPart.isEmpty then none else some (digitsToNat intPart, 0, 0)
  | '.' :: frac =>
    if frac.all Char.isDigit && !(intPart.isEmpty && frac.isEmpty) then
      some (digitsToNat intPart, digitsToNat frac, frac.length)
    else none
  | _ => none

/-- Exponent digits after `e`/`E`: optional sign then at least one digit. -/
def parseExponent (cs : List Char) : Option Int :=
  match cs with
  | '+' :: ds => if !ds.isEmpty && ds.all Char.isDigit then some (digitsToNat ds : Int) else none
  | '-' :: ds => if !ds.isEmpty && ds.all Char.isDigit then some (-(digitsToNat ds : Int)) else none
  | ds => if !ds.isEmpty && ds.all Char.isDigit then some (digitsToNat ds : Int) else none

/-- Split a character list at the first `e`/`E`, if any. -/
def splitAtExp (cs : List Char) : List Char × Option (List Char) :=
  match cs.findIdx? (fun c => c = 'e' || c = 'E') with
  | none => (cs, none)
  | some i => (cs.take i, some (cs.drop (i + 1)))

/-- Accepted shape of `float(s)`: the literal's syntactic content, `none`
when `float` raises `ValueError`. -/
def parseFloatRepr (s : String) : Option FloatRepr :=
  let cs := pyStrip s.toList
  let core := fun (neg : Bool) (body : List Char) =>
    let (m, e) := splitAtExp body
    match parseMantissa m, e with
    | some (i, f, l), none => some ⟨neg, i, f, l, 0⟩
    | some (i, f, l), some ecs => (parseExponent ecs).map (fun k => ⟨neg, i, f, l, k⟩)
    | none, _ => none
  match cs with
  | '+' :: rest => core false rest
  | '-' :: rest => core true rest
  | _ => core false cs

/-- Python `float(s)`: `some` of the parsed value, `none` when `float`
raises `ValueError`. -/
def pyFloat (s : String) : Option Rat :=
  (parseFloatRepr s).map ratOfRepr

/-! ## Ledger Client operations (`src/utils/sheets-old2.py`) -/

/-- `_safe_value(val)`: convert an optional value to a string, `"-"` when
missing or blank after stripping. -/
def safeValue : Option String → String
  | none => "-"
  | some v =>
    let s := stripStr v
    if s = "" then "-" else s

/-- Username field of the appended row: `_safe_value(username)`, prefixed
with `"@"` when it is a real value that does not already start with one. -/
def formatUsername (username : Option String) : String :=
  let f := safeValue username
  if f ≠ "-" && !(f.toList.head? = some '@') then "@" ++ f else f

/-- Row appended by `_add_partnercode_sync`:
`[Partner ID, Name, Contact, Username, Referral Source]`. -/
def partnerRowData (partnercode : String) (name contact username referral_source : Option String) :
    Row :=
  [partnercode, safeValue name, safeValue contact, formatUsername username,
    safeValue referral_source]

/-- `_add_partnercode_sync`: if the key is already present in column 1,
succeed without writing; otherwise append the metadata row. Any exception
while reaching the sheet yields `false` with the sheet unchanged. Returns
the resulting sheet state and the boolean result. -/
def addPartnercode (env : SheetsEnv) (partnercode : String)
    (name contact username referral_source : Option String) : SheetsEnv × Bool :=
  match env with
  | .fail => (.fail, false)
  | .ok ws =>
    match findKeyRow ws partnercode with
    | some _ => (.ok ws, true)
    | none =>
      (.ok (ws ++ [partnerRowData partnercode name contact username referral_source]), true)

/-- Sum of `float`-parseable cells of a row from the 5th column on
(`for value in row_values[4:]: balance += float(value)` with `ValueError`
skipped). -/
def rowBalance (row : Row) : Rat :=
  (row.drop 4).foldl
    (fun acc v =>
      match pyFloat v with
      | some x => acc + x
      | none => acc) 0

/-- `_get_balance_sync` (the second, effective definition at lines 209–240
of `src/utils/sheets-old2.py`): find the partner's row by key column,
return `0.0` when the sheet is unreachable, the key absent or the row
empty, else sum the parseable cells from the 5th column on. -/
def getBalance (env : SheetsEnv) (partnercode : String) : Rat :=
  match env with
  | .fail => 0
  | .ok ws =>
    match findKeyRow ws partnercode with
    | none => 0
    | some i =>
      match ws.get? i with
      | none => 0
      | some row => if row.isEmpty then 0 else rowBalance row

/-- Modelled from the spec and the commented-out body at lines 189–208 of
`src/utils/sheets-old2.py` (its `def _get_worksheet_info_sync` line is
commented out, so the function is missing from the running code):
worksheet statistics record. -/
structure WorksheetInfo where
  row_count : Nat
  partnercode_count : Nat
  deriving DecidableEq

/-- Modelled from the spec and the commented-out body of
`_get_worksheet_info_sync`: `row_count = len(all_values)` and
`partnercode_count = sum(1 for row in all_values[1:] if row and row[0])`. -/
def getWorksheetInfo (ws : Worksheet) : WorksheetInfo :=
  { row_count := ws.length
    partnercode_count :=
      ((ws.drop 1).filter (fun row => !row.isEmpty && !(row.headD "" = ""))).length }

/-- Number of rows of the worksheet whose key column holds `key`. -/
def keyRowCount (ws : Worksheet) (key : String) : Nat :=
  (ws.filter (fun row => row.head? = some key)).length

/-! ## User Store (`src/utils/database.py`)

One SQLite table `users(telegram_id PRIMARY KEY, name, phone, approved,
created_at, approved_at)`. `CURRENT_TIMESTAMP` and `datetime.now()` are
embedded as the store's logical clock, read by the operation and advanced
after every successful mutation. A storage fault (`sqlite3.Error`) is
caught inside every operation; the faulting read path is modelled by the
`fault` flag of `getUser`. -/

/-- One row of the `users` table. -/
structure UserRow where
  telegram_id : Int
  name : String
  phone : String
  approved : Bool
  created_at : Nat
  approved_at : Option Nat
  deriving DecidableEq

/-- Store state: the table plus the logical clock. -/
structure DB where
  rows : List UserRow
  clock : Nat
  deriving DecidableEq

/-- `SELECT ... FROM users WHERE telegram_id = ?` (first matching row). -/
def dbFind (db : DB) (id : Int) : Option UserRow :=
  db.rows.find? (fun r => r.telegram_id == id)

/-- `save_user`: reject a duplicate id without touching the table, else
insert with the given `approved` flag, `created_at` = now and
`approved_at` = NULL (the column default). -/
def saveUser (db : DB) (telegram_id : Int) (name phone : String) (approved : Bool) :
    DB × Bool :=
  match dbFind db telegram_id with
  | some _ => (db, false)
  | none =>
    ({ rows := db.rows ++ [⟨telegram_id, name, phone, approved, db.clock, none⟩],
       clock := db.clock + 1 }, true)

/-- `get_user`: the row as a record, `none` when absent; a storage fault is
caught and likewise yields `none` (the function never raises). -/
def getUser (fault : Bool) (db : DB) (id : Int) : Option UserRow :=
  if fault then none else dbFind db id

/-- `update_user_approval`: set `approved` and `approved_at` (now when
approving, NULL otherwise) on the matching row; `false` without a commit
when no row matched. -/
def updateUserApproval (db : DB) (id : Int) (approved : Bool) : DB × Bool :=
  let ts : Option Nat := if approved then some db.clock else none
  if (dbFind db id).isSome then
    ({ rows := db.rows.map (fun r =>
         if r.telegram_id == id then { r with approved := approved, approved_at := ts } else r),
       clock := db.clock + 1 }, true)
  else (db, false)

/-- `delete_user`: remove the matching row; `false` when no row matched. -/
def deleteUser (db : DB) (id : Int) : DB × Bool :=
  if (dbFind db id).isSome then
    ({ rows := db.rows.filter (fun r => !(r.telegram_id == id)), clock := db.clock + 1 }, true)
  else (db, false)

/-- `is_user_approved`: `user['approved'] if user else False`. Total: a
missing record or a failed lookup yields `false`, never an exception. -/
def isUserApproved (fault : Bool) (db : DB) (id : Int) : Bool :=
  match getUser fault db id with
  | some u => u.approved
  | none => false

/-- The specified record invariant: `approved_at` is non-null iff
`approved` is true, for every row of the table. -/
def approvalInvariant (db : DB) : Bool :=
  db.rows.all (fun r => r.approved_at.isSome == r.approved)

/-- Clock sanity: every stored `created_at` was read from the store's
clock, which only moves forward. -/
def clockInvariant (db : DB) : Bool :=
  db.rows.all (fun r => decide (r.created_at ≤ db.clock))

/-! ## Admission Workflow (`src/handlers/admin.py`)

`approve_user` / `reject_user` callback handlers. Message sending is a pure
side effect (it touches no store), so the embedding returns only the store
states and the tagged outcome that the handler surfaces. -/

/-- Outcome surfaced by the `approve_user` handler. -/
inductive ApproveResult where
  | notAdmin
  | notFound
  | alreadyApproved
  | dbError
  | sheetsError
  | approved
  deriving DecidableEq

/-- `approve_user`: admin gate, record-exists and not-yet-approved guards,
then `update_user_approval(id, True)` followed by
`add_partnercode(str(id), name, phone, caller username, None)`. -/
def approveUser (isAdminCaller : Bool) (db : DB) (env : SheetsEnv) (userId : Int)
    (callerUsername : Option String) : DB × SheetsEnv × ApproveResult :=
  if !isAdminCaller then (db, env, .notAdmin)
  else
    match getUser false db userId with
    | none => (db, env, .notFound)
    | some u =>
      if u.approved then (db, env, .alreadyApproved)
      else
        let res := updateUserApproval db userId true
        if res.2 then
          let res2 := addPartnercode env (toString userId) (some u.name) (some u.phone)
            callerUsername none
          if res2.2 then (res.1, res2.1, .approved) else (res.1, res2.1, .sheetsError)
        else (res.1, env, .dbError)

/-- Outcome surfaced by the `reject_user` handler. -/
inductive RejectResult where
  | notAdmin
  | notFound
  | rejected
  deriving DecidableEq

/-- `reject_user`: admin gate and record-exists guard, then notifications
only — no store write on any path. -/
def rejectUser (isAdminCaller : Bool) (db : DB) (userId : Int) : DB × RejectResult :=
  if !isAdminCaller then (db, .notAdmin)
  else
    match getUser false db userId with
    | none => (db, .notFound)
    | some _ => (db, .rejected)

/-! ## Helper lemmas -/

/-- Evaluation of `pyFloat` through an accepted literal shape. -/
theorem pyFloat_of_repr (s : String) (r : FloatRepr) (h : parseFloatRepr s = some r) :
    pyFloat s = some (ratOfRepr r) := by
  rw [pyFloat, h]; rfl

/-- Evaluation of `pyFloat` on a rejected cell. -/
theorem pyFloat_of_none (s : String) (h : parseFloatRepr s = none) :
    pyFloat s = none := by
  rw [pyFloat, h]; rfl

/-- The column-1 scan comes up empty exactly when no row carries the key. -/
theorem findKeyRow_eq_none (ws : Worksheet) (key : String)
    (h : ∀ row ∈ ws, row.head? ≠ some key) : findKeyRow ws key = none := by
  rw [findKeyRow]
  induction ws with
  | nil => rfl
  | cons a t ih =>
    have ha : ¬(a.head? = some key) := h a (List.mem_cons_self a t)
    rw [List.findIdx?_cons]
    simp only [decide_eq_true_eq] at *
    rw [if_neg ha]
    have := ih (fun row hr => h row (List.mem_cons_of_mem a hr))
    simp only [List.findIdx?_succ] at *
    simp [this]

/-- A key with no matching row has scan index `none`. -/
theorem findKeyRow_of_count_zero (ws : Worksheet) (key : String)
    (h : keyRowCount ws key = 0) : findKeyRow ws key = none := by
  refine findKeyRow_eq_none ws key (fun row hr hhead => ?_)
  have : row ∈ ws.filter (fun row => row.head? = some key) := by
    rw [List.mem_filter]
    exact ⟨hr, by simp [hhead]⟩
  rw [keyRowCount, List.length_eq_zero] at h
  rw [h] at this
  exact absurd this (List.not_mem_nil row)

/-! ## Claim C1 -/

/-- Modelled from the spec: the required numeric parsing rule for balance
cells — "a cell value is included in the balance sum iff, after normalizing
a comma decimal separator to a period, it parses as a floating-point
number". The running code (`float(value)` at line 231 of
`src/utils/sheets-old2.py`) performs no such normalization. -/
def specCellValue (s : String) : Option Rat :=
  pyFloat (String.mk (s.toList.map (fun c => if c = ',' then '.' else c)))

/-- Modelled from the spec: the balance contribution of a row from the 5th
column on under the spec's comma-normalizing parsing rule. -/
def specRowBalance (row : Row) : Rat :=
  (row.drop 4).foldl
    (fun acc v =>
      match specCellValue v with
      | some x => acc + x
      | none => acc) 0

/-- Ledger row of the C1 scenario: metadata columns then the cells
`["100,50", "text", "200.75", ""]` from column 5 on. -/
def c1Row : Row :=
  ["12345", "Test User", "+1234567890", "@testuser", "100,50", "text", "200.75", ""]

/-- Worksheet of the C1 scenario: a header and the partner's row. -/
def c1Ws : Worksheet :=
  [["partnercode", "name", "contact", "username", "amount"], c1Row]

/-- C1: on the row whose cells from column 5 on are
`["100,50", "text", "200.75", ""]`, `get_balance` as implemented returns
`200.75` — the comma-decimal cell `"100,50"` raises `ValueError` inside
`float` and is skipped — whereas the spec's comma-normalizing parsing rule
(second conjunct, modelled from the spec) sums the row to `301.25` as the
claim states. The implementation thus diverges from the claim on this
input. -/
theorem c1_get_balance_comma_divergence :
    getBalance (.ok c1Ws) "12345" = 200.75 ∧ specRowBalance c1Row = 301.25 := by
  constructor
  · have hfind : findKeyRow c1Ws "12345" = some 1 := by decide
    have hget : c1Ws.get? 1 = some c1Row := by decide
    have hrow : c1Row.isEmpty = false := by decide
    have hdrop : c1Row.drop 4 = ["100,50", "text", "200.75", ""] := by decide
    simp only [getBalance, hfind, hget, hrow, Bool.false_eq_true, if_false, rowBalance, hdrop,
      List.foldl_cons, List.foldl_nil,
      pyFloat_of_none _ (by decide : parseFloatRepr "100,50" = none),
      pyFloat_of_none _ (by decide : parseFloatRepr "text" = none),
      pyFloat_of_none _ (by decide : parseFloatRepr "" = none),
      pyFloat_of_repr "200.75" ⟨false, 200, 75, 2, 0⟩ (by decide)]
    norm_num [ratOfRepr]
  · have hdrop : c1Row.drop 4 = ["100,50", "text", "200.75", ""] := by decide
    have e1 : specCellValue "100,50" = some (ratOfRepr ⟨false, 100, 50, 2, 0⟩) :=
      pyFloat_of_repr _ _ (by decide)
    have e2 : specCellValue "text" = none := pyFloat_of_none _ (by decide)
    have e3 : specCellValue "200.75" = some (ratOfRepr ⟨false, 200, 75, 2, 0⟩) :=
      pyFloat_of_repr _ _ (by decide)
    have e4 : specCellValue "" = none := pyFloat_of_none _ (by decide)
    simp only [specRowBalance, hdrop, List.foldl_cons, List.foldl_nil, e1, e2, e3, e4]
    norm_num [ratOfRepr]

/-! ## Claim C2 -/

/-- Store state after user 12345 registers with name `"Test User"` and
phone `"+1234567890"` (the `save_user` call of the registration flow). -/
def c2Db1 : DB := (saveUser ⟨[], 0⟩ 12345 "Test User" "+1234567890" false).1

/-- Header-only worksheet at the start of the C2 scenario. -/
def c2Header : Row := ["partnercode", "name", "contact", "username", "referral"]

/-- C2: after registering user 12345 and approving through the admin
handler (which passes the stored name and phone, the caller's username
`"testuser"` and no referral source to `register_partner`), the appended
ledger row is exactly `["12345", "Test User", "+1234567890", "@testuser",
"-"]`: the missing referral source became the dash placeholder and the
username gained a single leading `"@"` — which is not doubled when the
username already carries one (last conjunct). -/
theorem c2_end_to_end_metadata_row :
    (approveUser true c2Db1 (.ok [c2Header]) 12345 (some "testuser")).2.1 =
      .ok [c2Header, ["12345", "Test User", "+1234567890", "@testuser", "-"]] ∧
    (approveUser true c2Db1 (.ok [c2Header]) 12345 (some "testuser")).2.2 = .approved ∧
    formatUsername (some "@testuser") = "@testuser" ∧
    safeValue (none : Option String) = "-" := by
  decide

/-! ## Claim C3 -/

/-- C3 counterexample: `save_user` accepts an optional `approved` flag and,
when it is passed as true, inserts the row with `approved = TRUE` while
`approved_at` keeps its NULL column default — so a single `create` call on
the empty store (where the invariant holds) produces a state violating
"`approved_at` is non-null iff `approved` is true". -/
theorem c3_create_approved_counterexample :
    approvalInvariant ⟨[], 0⟩ = true ∧
    (saveUser ⟨[], 0⟩ 12345 "Test User" "+1234567890" true).2 = true ∧
    approvalInvariant (saveUser ⟨[], 0⟩ 12345 "Test User" "+1234567890" true).1 = false := by
  decide

/-- C3 as amended: the invariant "`approved_at` is non-null iff `approved`"
is preserved by `create` with the default `approved = false`, by
`set_approval` with either flag value, and by `delete` — but not by
`create` with `approved = true`, which is excluded. -/
theorem c3_invariant_preserved_amended (db : DB) (h : approvalInvariant db = true)
    (id : Int) (name phone : String) (b : Bool) :
    approvalInvariant (saveUser db id name phone false).1 = true ∧
    approvalInvariant (updateUserApproval db id b).1 = true ∧
    approvalInvariant (deleteUser db id).1 = true := by
  refine ⟨?_, ?_, ?_⟩
  · rw [saveUser]
    cases hf : dbFind db id with
    | some r => exact h
    | none =>
      simp only [approvalInvariant, List.all_append, List.all_cons, List.all_nil,
        Option.isSome_none, Bool.and_true] at *
      simp [h]
  · rw [updateUserApproval]
    split
    · simp only [approvalInvariant, List.all_map, List.all_eq_true, Function.comp] at h ⊢
      intro r hr
      by_cases hid : (r.telegram_id == id) = true
      · simp only [hid, if_true]
        cases b <;> simp
      · simp only [hid, if_false, Bool.false_eq_true]
        exact h r hr
    · exact h
  · rw [deleteUser]
    split
    · simp only [approvalInvariant, List.all_eq_true] at h ⊢
      intro r hr
      exact h r (List.mem_of_mem_filter hr)
    · exact h

/-- C3 witness: the amended preservation applied to the singleton store
holding one unapproved record. -/
theorem c3_invariant_preserved_amended_witness :
    approvalInvariant (saveUser ⟨[⟨7, "Ann", "+7", false, 0, none⟩], 1⟩ 8 "Bob" "+8" false).1
        = true ∧
    approvalInvariant (updateUserApproval ⟨[⟨7, "Ann", "+7", false, 0, none⟩], 1⟩ 8 true).1
        = true ∧
    approvalInvariant (deleteUser ⟨[⟨7, "Ann", "+7", false, 0, none⟩], 1⟩ 8).1 = true :=
  c3_invariant_preserved_amended ⟨[⟨7, "Ann", "+7", false, 0, none⟩], 1⟩ (by decide) 8 "Bob" "+8"
    true

/-! ## Claim C4 -/

/-- C4: a second `create` with an id already present returns the negative
result `false` (no exception is modelled: the duplicate path is an ordinary
return) and leaves the store — hence the existing record and all its
fields — unchanged. -/
theorem c4_duplicate_create_rejected (db : DB) (id : Int) (r : UserRow)
    (h : dbFind db id = some r) (name phone : String) (approved : Bool) :
    saveUser db id name phone approved = (db, false) ∧
    dbFind (saveUser db id name phone approved).1 id = some r := by
  have hs : saveUser db id name phone approved = (db, false) := by
    rw [saveUser, h]
  exact ⟨hs, by rw [hs]; exact h⟩

/-- C4 witness: re-creating id 7 against the store that already holds it. -/
theorem c4_duplicate_create_rejected_witness :
    saveUser ⟨[⟨7, "Ann", "+7", false, 0, none⟩], 1⟩ 7 "Bob" "+8" true =
      (⟨[⟨7, "Ann", "+7", false, 0, none⟩], 1⟩, false) ∧
    dbFind (saveUser ⟨[⟨7, "Ann", "+7", false, 0, none⟩], 1⟩ 7 "Bob" "+8" true).1 7 =
      some ⟨7, "Ann", "+7", false, 0, none⟩ :=
  c4_duplicate_create_rejected ⟨[⟨7, "Ann", "+7", false, 0, none⟩], 1⟩ 7
    ⟨7, "Ann", "+7", false, 0, none⟩ (by decide) "Bob" "+8" true

/-! ## Claim C5 -/

/-- C5: `get_balance` is total in the model (it returns a value on every
input, mirroring the handler-level catch of every exception): it returns
`0.0` whenever the requested key appears nowhere in the worksheet's key
column, and `0.0` whenever reaching the sheet fails for any reason. -/
theorem c5_get_balance_defaults_zero (ws : Worksheet) (key : String)
    (h : ∀ row ∈ ws, row.head? ≠ some key) :
    getBalance (.ok ws) key = 0 ∧ ∀ k : String, getBalance .fail k = 0 := by
  refine ⟨?_, fun k => rfl⟩
  rw [getBalance, findKeyRow_eq_none ws key h]

/-- C5 witness: an absent id on a populated sheet, and a failing sheet. -/
theorem c5_get_balance_defaults_zero_witness :
    getBalance (.ok [["partnercode", "x"], ["12345", "9.5"]]) "99999" = 0 ∧
    ∀ k : String, getBalance .fail k = 0 :=
  c5_get_balance_defaults_zero [["partnercode", "x"], ["12345", "9.5"]] "99999" (by decide)

/-! ## Claim C6 -/

/-- Mapping a row transformation that does not affect which rows match the
key commutes with the first-match lookup. -/
theorem find?_map_of_pred (f : UserRow → UserRow) (p : UserRow → Bool)
    (hp : ∀ x, p (f x) = p x) (l : List UserRow) (r : UserRow) (h : l.find? p = some r) :
    (l.map f).find? p = some (f r) := by
  induction l with
  | nil => simp at h
  | cons a t ih =>
    by_cases ha : p a = true
    · rw [List.find?_cons_of_pos _ ha] at h
      rw [List.map_cons, List.find?_cons_of_pos _ (by rw [hp]; exact ha)]
      cases h
      rfl
    · rw [List.find?_cons_of_neg _ (by simpa using ha)] at h
      rw [List.map_cons, List.find?_cons_of_neg _ (by rw [hp]; simpa using ha)]
      exact ih h

/-- C6: on a store whose timestamps do not run ahead of the clock, approving
a present, unapproved record succeeds, and the subsequent lookup returns the
same record with `approved = true` and `approved_at` set to a timestamp no
earlier than its `created_at`. -/
theorem c6_set_approval_then_find (db : DB) (id : Int) (r : UserRow)
    (hclock : clockInvariant db = true)
    (hfind : dbFind db id = some r) (_hunapproved : r.approved = false) :
    (updateUserApproval db id true).2 = true ∧
    ∃ t, dbFind (updateUserApproval db id true).1 id =
        some { r with approved := true, approved_at := some t } ∧
      r.created_at ≤ t := by
  have hsome : (dbFind db id).isSome = true := by rw [hfind]; rfl
  have hfind2 : db.rows.find? (fun x => x.telegram_id == id) = some r := hfind
  have hpr : (r.telegram_id == id) = true := by
    have h := List.find?_some hfind2
    simpa using h
  constructor
  · rw [updateUserApproval]
    simp only [hsome, if_true]
  · refine ⟨db.clock, ?_, ?_⟩
    · rw [updateUserApproval]
      simp only [hsome, if_true]
      rw [dbFind]
      have := find?_map_of_pred
        (fun x => if x.telegram_id == id then
          { x with approved := true, approved_at := some db.clock } else x)
        (fun x => x.telegram_id == id)
        (fun x => by by_cases hx : (x.telegram_id == id) = true <;> simp [hx])
        db.rows r hfind2
      rw [this]
      simp only [hpr, if_true]
    · have hmem : r ∈ db.rows := List.mem_of_find?_eq_some hfind2
      rw [clockInvariant, List.all_eq_true] at hclock
      simpa using hclock r hmem

/-- C6 witness: the singleton store holding the unapproved record ⟨5, …⟩
created at time 0 with the clock at 1. -/
theorem c6_set_approval_then_find_witness :
    (updateUserApproval ⟨[⟨5, "N", "P", false, 0, none⟩], 1⟩ 5 true).2 = true ∧
    ∃ t, dbFind (updateUserApproval ⟨[⟨5, "N", "P", false, 0, none⟩], 1⟩ 5 true).1 5 =
        some ⟨5, "N", "P", true, 0, some t⟩ ∧ 0 ≤ t :=
  c6_set_approval_then_find ⟨[⟨5, "N", "P", false, 0, none⟩], 1⟩ 5 ⟨5, "N", "P", false, 0, none⟩
    (by decide) (by decide) rfl

/-! ## Claim C7 -/

/-- C7: `register_partner` is idempotent sequentially. First conjunct: when
the key already appears in the key column, the call succeeds and the
worksheet is returned unchanged — nothing is appended. Second conjunct:
starting with no row for the key, the first call appends the single
metadata row and succeeds, the second call succeeds returning the same
worksheet unchanged, and exactly one row for that key remains. -/
theorem c7_register_partner_idempotent (ws : Worksheet) (key : String)
    (name contact username referral : Option String) :
    (∀ i, findKeyRow ws key = some i →
      addPartnercode (.ok ws) key name contact username referral = (.ok ws, true)) ∧
    (keyRowCount ws key = 0 →
      addPartnercode (.ok ws) key name contact username referral =
        (.ok (ws ++ [partnerRowData key name contact username referral]), true) ∧
      addPartnercode (.ok (ws ++ [partnerRowData key name contact username referral])) key
          name contact username referral =
        (.ok (ws ++ [partnerRowData key name contact username referral]), true) ∧
      keyRowCount (ws ++ [partnerRowData key name contact username referral]) key = 1) := by
  constructor
  · intro i hi
    simp [addPartnercode, hi]
  · intro h0
    have hnone : findKeyRow ws key = none := findKeyRow_of_count_zero ws key h0
    have hhead : (partnerRowData key name contact username referral).head? = some key := rfl
    refine ⟨by simp [addPartnercode, hnone], ?_, ?_⟩
    · have hsome : (findKeyRow (ws ++ [partnerRowData key name contact username referral])
          key).isSome = true := by
        rw [findKeyRow, List.findIdx?_isSome]
        simp [hhead]
      obtain ⟨i, hi⟩ := Option.isSome_iff_exists.mp hsome
      simp [addPartnercode, hi]
    · have hfil : ws.filter (fun row => row.head? = some key) = [] := by
        rw [keyRowCount] at h0
        exact List.length_eq_zero.mp h0
      rw [keyRowCount, List.filter_append, hfil]
      simp [hhead]

/-- C7 witness: registering key `"12345"` twice on a header-only sheet. -/
theorem c7_register_partner_idempotent_witness :
    (∀ i, findKeyRow [["partnercode"]] "12345" = some i →
      addPartnercode (.ok [["partnercode"]]) "12345" none none none none =
        (.ok [["partnercode"]], true)) ∧
    (keyRowCount [["partnercode"]] "12345" = 0 →
      addPartnercode (.ok [["partnercode"]]) "12345" none none none none =
        (.ok ([["partnercode"]] ++ [partnerRowData "12345" none none none none]), true) ∧
      addPartnercode (.ok ([["partnercode"]] ++ [partnerRowData "12345" none none none none]))
          "12345" none none none none =
        (.ok ([["partnercode"]] ++ [partnerRowData "12345" none none none none]), true) ∧
      keyRowCount ([["partnercode"]] ++ [partnerRowData "12345" none none none none]) "12345"
        = 1) :=
  c7_register_partner_idempotent [["partnercode"]] "12345" none none none none

/-! ## Claim C8 -/

/-- C8: the statistics record computed by the worksheet-info body (as
written in the source, where its `def` line is commented out) satisfies the
claimed formulas: `row_count` is the total number of rows including the
header, and `partnercode_count` counts the rows after the header whose key
column is non-empty. -/
theorem c8_worksheet_stats_formula (ws : Worksheet) :
    (getWorksheetInfo ws).row_count = ws.length ∧
    (getWorksheetInfo ws).partnercode_count =
      ((ws.drop 1).filter (fun row => !(row.headD "" = ""))).length := by
  refine ⟨rfl, ?_⟩
  simp only [getWorksheetInfo]
  congr 1
  apply List.filter_congr
  intro row hr
  cases row <;> simp

/-! ## Claim C9 -/

/-- C9: `reject_user` returns the store unchanged on every path (admin
check failed, record missing, or the notification-only reject), so the
rejected record keeps `approved = false` and all its fields; iterating the
transition any number of times still leaves the store unchanged; and a
subsequent approval of the still-present, still-unapproved record through
`approve_user` succeeds against any reachable worksheet. -/
theorem c9_reject_mutates_nothing (a : Bool) (db : DB) (id : Int) :
    (rejectUser a db id).1 = db ∧
    (∀ n : Nat, (fun d => (rejectUser a d id).1)^[n] db = db) ∧
    (∀ u : UserRow, dbFind db id = some u → u.approved = false →
      ∀ (ws : Worksheet) (un : Option String),
        (approveUser true db (.ok ws) id un).2.2 = .approved) := by
  have h1 : ∀ d : DB, (rejectUser a d id).1 = d := by
    intro d
    rw [rejectUser]
    split
    · rfl
    · cases getUser false d id <;> rfl
  refine ⟨h1 db, fun n => Function.iterate_fixed (h1 db) n, ?_⟩
  intro u hu hna ws un
  have husome : (dbFind db id).isSome = true := by rw [hu]; rfl
  have hupd : (updateUserApproval db id true).2 = true := by
    rw [updateUserApproval]
    simp only [husome, if_true]
  cases hk : findKeyRow ws (toString id) <;>
    simp [approveUser, getUser, hu, hna, hupd, addPartnercode, hk]

/-- C9 witness: rejecting the pending user 5 leaves the singleton store
unchanged, and approving afterwards still succeeds. -/
theorem c9_reject_mutates_nothing_witness :
    (rejectUser true ⟨[⟨5, "N", "P", false, 0, none⟩], 1⟩ 5).1 =
      ⟨[⟨5, "N", "P", false, 0, none⟩], 1⟩ ∧
    (∀ n : Nat, (fun d => (rejectUser true d 5).1)^[n] ⟨[⟨5, "N", "P", false, 0, none⟩], 1⟩ =
      ⟨[⟨5, "N", "P", false, 0, none⟩], 1⟩) ∧
    (∀ u : UserRow, dbFind ⟨[⟨5, "N", "P", false, 0, none⟩], 1⟩ 5 = some u →
      u.approved = false → ∀ (ws : Worksheet) (un : Option String),
        (approveUser true ⟨[⟨5, "N", "P", false, 0, none⟩], 1⟩ (.ok ws) 5 un).2.2 =
          .approved) :=
  c9_reject_mutates_nothing true ⟨[⟨5, "N", "P", false, 0, none⟩], 1⟩ 5

/-! ## Claim C10 -/

/-- C10: the admission gate `is_user_approved` is a total boolean query: on
an id with no record in the store it returns `false`, and when the
underlying lookup fails (the caught storage fault, modelled by the `fault`
flag) it also returns `false` — unknown users are never treated as
approved and no exception escapes. -/
theorem c10_unknown_user_unapproved (db : DB) (id : Int) :
    ((∀ r ∈ db.rows, r.telegram_id ≠ id) → isUserApproved false db id = false) ∧
    isUserApproved true db id = false := by
  constructor
  · intro h
    have hnone : db.rows.find? (fun x => x.telegram_id == id) = none := by
      apply List.find?_eq_none.mpr
      intro x hx
      simpa using h x hx
    rw [isUserApproved, getUser]
    simp only [Bool.false_eq_true, if_false, dbFind, hnone]
  · rfl

/-- C10 witness: id 99999 against the empty store, with and without a
storage fault. -/
theorem c10_unknown_user_unapproved_witness :
    isUserApproved false ⟨[], 0⟩ 99999 = false ∧ isUserApproved true ⟨[], 0⟩ 99999 = false :=
  ⟨(c10_unknown_user_unapproved ⟨[], 0⟩ 99999).1 (by simp),
    (c10_unknown_user_unapproved ⟨[], 0⟩ 99999).2⟩
